import Mathlib

/-!
Verification development for the `gym` repository: a shallow embedding of the
Verlet particle engine (`verlet.go`), the cart-pole environment
(`env_cartpole.go`), the ball-push environment (`env_ballpush.go`), the shared
action-validation helper, and the action-consuming prefix of the walker
environment's `Step` (`env_walker.go`).

Go `float64` arithmetic is modelled by the real numbers; `pixel.Vec` is
modelled by a pair of reals.  Fatal validation failures (Go panics) are
modelled by `Option`: a step that panics returns `none`.  The debug `Info`
maps (always empty or unused for control) are not modelled.
-/

set_option maxHeartbeats 1600000

noncomputable section

/-- Model of `pixel.Vec`: a 2-d vector of `float64` components. -/
structure Vec where
  x : ℝ
  y : ℝ
deriving DecidableEq

namespace Vec

/-- `pixel.ZV`, the zero vector. -/
def zv : Vec := ⟨0, 0⟩

/-- `pixel.Vec.Add`. -/
def add (v w : Vec) : Vec := ⟨v.x + w.x, v.y + w.y⟩

/-- `pixel.Vec.Sub`. -/
def sub (v w : Vec) : Vec := ⟨v.x - w.x, v.y - w.y⟩

/-- `pixel.Vec.Scaled`. -/
def scaled (v : Vec) (c : ℝ) : Vec := ⟨v.x * c, v.y * c⟩

/-- `pixel.Vec.Len`, i.e. `math.Hypot(v.X, v.Y)`. -/
def len (v : Vec) : ℝ := Real.sqrt (v.x * v.x + v.y * v.y)

/-- `pixel.Vec.Unit`: `v.Scaled(1 / v.Len())`.  (In the real-number model
division by zero yields zero, so `unit zv = zv`.) -/
def unit (v : Vec) : Vec := v.scaled (1 / v.len)

/-- `pixel.Vec.Dot`. -/
def dot (v w : Vec) : ℝ := v.x * w.x + v.y * w.y

/-- `pixel.Vec.Rotated`. -/
def rotated (v : Vec) (angle : ℝ) : Vec :=
  ⟨v.x * Real.cos angle - v.y * Real.sin angle,
   v.x * Real.sin angle + v.y * Real.cos angle⟩

theorem len_nonneg (v : Vec) : 0 ≤ v.len := Real.sqrt_nonneg _

theorem len_axis (y : ℝ) : Vec.len ⟨0, y⟩ = |y| := by
  simp [Vec.len]
  rw [show y * y = y ^ 2 by ring, Real.sqrt_sq_eq_abs]

theorem len_axis_x (x : ℝ) : Vec.len ⟨x, 0⟩ = |x| := by
  simp [Vec.len]
  rw [show x * x = x ^ 2 by ring, Real.sqrt_sq_eq_abs]

theorem len_scaled (v : Vec) (c : ℝ) : (v.scaled c).len = |c| * v.len := by
  unfold Vec.len Vec.scaled
  rw [show v.x * c * (v.x * c) + v.y * c * (v.y * c) = c ^ 2 * (v.x * v.x + v.y * v.y) by ring]
  rw [Real.sqrt_mul (sq_nonneg c), Real.sqrt_sq_eq_abs]

theorem len_unit (v : Vec) (h : v ≠ zv) : v.unit.len = 1 := by
  have hx : 0 < v.x * v.x + v.y * v.y := by
    rcases (show v.x ≠ 0 ∨ v.y ≠ 0 by
      by_contra hc
      push_neg at hc
      exact h (by cases v with
        | mk a b => simp [zv] at hc ⊢; exact ⟨hc.1, hc.2⟩)) with h1 | h1
    · have := mul_self_nonneg v.y
      nlinarith [mul_self_pos.mpr h1]
    · have := mul_self_nonneg v.x
      nlinarith [mul_self_pos.mpr h1]
  have hlen : 0 < v.len := Real.sqrt_pos.mpr hx
  rw [unit, len_scaled, abs_of_pos (by positivity : (0:ℝ) < 1 / v.len)]
  field_simp

theorem unit_axis_pos (y : ℝ) (h : 0 < y) : Vec.unit ⟨0, y⟩ = ⟨0, 1⟩ := by
  unfold Vec.unit Vec.scaled
  rw [len_axis, abs_of_pos h]
  simp
  field_simp

theorem unit_axis_neg (y : ℝ) (h : y < 0) : Vec.unit ⟨0, y⟩ = ⟨0, -1⟩ := by
  unfold Vec.unit Vec.scaled
  rw [len_axis, abs_of_neg h]
  simp
  rw [show y * (-y)⁻¹ = -(y * y⁻¹) by ring, mul_inv_cancel₀ (ne_of_lt h)]

end Vec

/-- Model of `VerletParticle` (`verlet.go`). -/
structure VerletParticle where
  currentPosition : Vec
  previousPosition : Vec
  mass : ℝ
  currentForce : Vec
  currentImpulse : Vec
  recentVelocity : Vec
  recentAcceleration : Vec
  dt : ℝ

namespace VerletParticle

/-- `NewVerletParticle`: both positions set to `position`; force, impulse and
the cached velocity/acceleration are zero (`currentImpulse` is the Go zero
value). -/
def new (position : Vec) (mass dt : ℝ) : VerletParticle :=
  ⟨position, position, mass, Vec.zv, Vec.zv, Vec.zv, Vec.zv, dt⟩

/-- `Position()`. -/
def position (p : VerletParticle) : Vec := p.currentPosition

/-- `Velocity()`: returns the cached `recentVelocity`. -/
def velocity (p : VerletParticle) : Vec := p.recentVelocity

/-- `Acceleration()`: returns the cached `recentAcceleration`. -/
def acceleration (p : VerletParticle) : Vec := p.recentAcceleration

/-- `ApplyForce`. -/
def applyForce (p : VerletParticle) (force : Vec) : VerletParticle :=
  { p with currentForce := p.currentForce.add force }

/-- `ApplyImpulse`. -/
def applyImpulse (p : VerletParticle) (impulse : Vec) : VerletParticle :=
  { p with currentImpulse := p.currentImpulse.add impulse }

/-- `SlideToPosition`: overwrites `currentPosition` only. -/
def slideToPosition (p : VerletParticle) (newPos : Vec) : VerletParticle :=
  { p with currentPosition := newPos }

/-- `SetVelocity`: sets `previousPosition = currentPosition - vel * dt`. -/
def setVelocity (p : VerletParticle) (vel : Vec) : VerletParticle :=
  { p with previousPosition := p.currentPosition.sub (vel.scaled p.dt) }

/-- `StepParticle` (`verlet.go`, lines 73-83). -/
def stepParticle (p : VerletParticle) : VerletParticle :=
  let totalForce := p.currentForce.add (p.currentImpulse.scaled (1 / p.dt))
  let acceleration := totalForce.scaled (1 / p.mass)
  let nextPosition :=
    ((p.currentPosition.scaled 2).sub p.previousPosition).add
      (acceleration.scaled (p.dt * p.dt))
  { p with
      recentAcceleration := acceleration
      recentVelocity := (nextPosition.sub p.previousPosition).scaled (0.5 / p.dt)
      previousPosition := p.currentPosition
      currentPosition := nextPosition
      currentForce := Vec.zv
      currentImpulse := Vec.zv }

end VerletParticle

/-- Model of `StepData` (`env.go`).  The debug `Info` map is not modelled. -/
structure StepData where
  Observation : List ℝ
  Reward : ℝ
  Terminated : Bool

/-- Model of `ResetData` (`env.go`). -/
structure ResetData where
  Observation : List ℝ

/-- `validateAction` (`env_cartpole.go`, second file section): the Go helper
panics iff the length differs from `targetLength` or some component lies
outside `[-1, 1]`.  This proposition holds iff it does not panic. -/
def validAction (action : List ℝ) (targetLength : ℕ) : Prop :=
  action.length = targetLength ∧ ∀ v ∈ action, ¬(v < -1 ∨ v > 1)

/-- One element of `clampAll`: clamp a value into `[-1, 1]` exactly as the Go
loop body does (first raise to `-1`, then lower to `1`). -/
def clampOne (v : ℝ) : ℝ :=
  let a := if v < -1 then -1 else v
  if a > 1 then 1 else a

/-- `clampAll` (`env_cartpole.go`, second file section). -/
def clampAll (vals : List ℝ) : List ℝ := vals.map clampOne

/-- Model of `CartPoleSettings`. -/
structure CartPoleSettings where
  Acceleration : ℝ
  MaxVelocity : ℝ
  MaxRotationalVelocity : ℝ
  GravityAcceleration : ℝ
  TorqueMultiplier : ℝ
  TimeStep : ℝ
  MaxInitialAngle : ℝ
  MaxInitialOffset : ℝ
  FailAngle : ℝ
  CenteredPerStepReward : ℝ
  OutOfBoundsReward : ℝ
  PoleFallReward : ℝ

/-- Model of the mutable state of `CartPoleEnv` (the drawer is rendering-only
and not modelled). -/
structure CartPoleEnv where
  BoxPosition : ℝ
  BoxVelocity : ℝ
  PoleRotation : ℝ
  PoleRotationalVelocity : ℝ
  Settings : CartPoleSettings

namespace CartPoleEnv

/-- `getObservation` (`env_cartpole.go`, lines 132-139). -/
def getObservation (e : CartPoleEnv) : List ℝ :=
  clampAll
    [e.BoxPosition,
     e.BoxVelocity / e.Settings.MaxVelocity,
     e.PoleRotation / 180,
     e.PoleRotationalVelocity / e.Settings.MaxRotationalVelocity]

/-- The body of `CartPoleEnv.Step` after validation (`env_cartpole.go`,
lines 89-129), as a pure function of the state and `action[0]`. -/
def stepBody (e : CartPoleEnv) (forceAction : ℝ) : CartPoleEnv × StepData :=
  let s := e.Settings
  let v1 := e.BoxVelocity + forceAction * s.Acceleration * s.TimeStep
  let v2 := if v1 > s.MaxVelocity then s.MaxVelocity
            else if v1 < -s.MaxVelocity then -s.MaxVelocity else v1
  let boxPosition := e.BoxPosition + v2 * s.TimeStep
  let poleGravityAcceleration := s.GravityAcceleration * Real.sin e.PoleRotation
  let poleTorque := forceAction * Real.cos e.PoleRotation * s.TorqueMultiplier
  let rv1 := e.PoleRotationalVelocity + (poleGravityAcceleration + poleTorque) * s.TimeStep
  let rv2 := if rv1 > s.MaxRotationalVelocity then s.MaxRotationalVelocity
             else if rv1 < -s.MaxRotationalVelocity then -s.MaxRotationalVelocity else rv1
  let poleRotation := e.PoleRotation + rv2 * s.TimeStep
  let e' : CartPoleEnv :=
    { e with
        BoxPosition := boxPosition
        BoxVelocity := v2
        PoleRotation := poleRotation
        PoleRotationalVelocity := rv2 }
  let failed0 := false
  let reward0 := s.CenteredPerStepReward * 1 - |boxPosition|
  let fr : Bool × ℝ :=
    if boxPosition > 1 ∨ boxPosition < -1 then (true, s.OutOfBoundsReward)
    else if poleRotation > s.FailAngle ∨ poleRotation < -s.FailAngle then
      (true, s.PoleFallReward)
    else (failed0, reward0)
  (e', ⟨e'.getObservation, fr.2, fr.1⟩)

open Classical in
/-- `CartPoleEnv.Step` (`env_cartpole.go`, lines 86-130): validation failure
is a panic, modelled as `none`. -/
def step (e : CartPoleEnv) (action : List ℝ) : Option (CartPoleEnv × StepData) :=
  if validAction action 1 then some (e.stepBody (action.headI)) else none

/-- `CartPoleEnv.Reset` (`env_cartpole.go`, lines 146-155): the two
`rand.Float64()` draws (each in `[0, 1)`) are explicit parameters. -/
def reset (e : CartPoleEnv) (r1 r2 : ℝ) : CartPoleEnv × ResetData :=
  let e' : CartPoleEnv :=
    { e with
        BoxPosition := (r1 * 2 - 1) * e.Settings.MaxInitialOffset
        BoxVelocity := 0
        PoleRotation := (r2 * 2 - 1) * e.Settings.MaxInitialAngle
        PoleRotationalVelocity := 0 }
  (e', ⟨e'.getObservation⟩)

/-- Fold of `stepBody` over a list of single-component actions. -/
def traj (e : CartPoleEnv) (actions : List ℝ) : CartPoleEnv :=
  actions.foldl (fun s f => (s.stepBody f).1) e

end CartPoleEnv

/-- Model of `BallPushSettings`. -/
structure BallPushSettings where
  BallRadius : ℝ
  AgentRadius : ℝ
  AgentAcceleration : ℝ
  AgentDrag : ℝ
  BallDrag : ℝ
  BoundaryRadius : ℝ
  MoveToBallReward : ℝ
  TouchBallReward : ℝ
  MoveToCenterReward : ℝ
  PlaceInCenterReward : ℝ
  TargetRadius : ℝ
  Scale : ℝ
  DeltaTime : ℝ

/-- `DefaultBallPushSettings` (`env_ballpush.go`, lines 13-27). -/
def DefaultBallPushSettings : BallPushSettings :=
  { BallRadius := 2
    AgentRadius := 1
    AgentAcceleration := 20
    AgentDrag := 1.5
    BallDrag := 0.75
    BoundaryRadius := 50
    MoveToBallReward := 0.5
    TouchBallReward := 1
    MoveToCenterReward := 1
    PlaceInCenterReward := 2
    TargetRadius := 3
    Scale := 10
    DeltaTime := 1 / 60 }

/-- `BallPushSettings.AgentMaxSpeed`. -/
def BallPushSettings.AgentMaxSpeed (b : BallPushSettings) : ℝ :=
  b.AgentAcceleration / b.AgentDrag

/-- Model of the mutable state of `BallPushEnv` (the drawer is
rendering-only and not modelled). -/
structure BallPushEnv where
  Agent : VerletParticle
  Ball : VerletParticle
  HasTouchedBall : Bool
  HasCenteredBall : Bool
  Settings : BallPushSettings

namespace BallPushEnv

/-- `BallPushEnv.BallInCenter` (`env_ballpush.go`, lines 45-47). -/
def BallInCenter (b : BallPushEnv) : Prop :=
  b.Ball.position.len < b.Settings.TargetRadius - b.Settings.BallRadius

open Classical in
/-- The control vector computed at the top of `BallPushEnv.Step`
(`env_ballpush.go`, lines 158-162): normalized to unit length whenever its
length is positive. -/
def controlVec (a0 a1 : ℝ) : Vec :=
  let c : Vec := ⟨a0, a1⟩
  if c.len > 0 then c.unit else c

/-- The control force applied to the agent in `BallPushEnv.Step`
(`env_ballpush.go`, line 164). -/
def agentControlForce (s : BallPushSettings) (a0 a1 : ℝ) : Vec :=
  (controlVec a0 a1).scaled s.AgentAcceleration

/-- Force application phase of `BallPushEnv.Step` (`env_ballpush.go`,
lines 158-169). -/
def applyForces (e : BallPushEnv) (a0 a1 : ℝ) : BallPushEnv :=
  let agentDragForce := e.Agent.velocity.scaled e.Settings.AgentDrag
  let ballDragForce := e.Ball.velocity.scaled e.Settings.BallDrag
  { e with
      Agent := e.Agent.applyForce ((agentControlForce e.Settings a0 a1).sub agentDragForce)
      Ball := e.Ball.applyForce (ballDragForce.scaled (-1)) }

open Classical in
/-- Agent boundary containment phase of `BallPushEnv.Step`
(`env_ballpush.go`, lines 171-174). -/
def agentBoundary (e : BallPushEnv) : BallPushEnv :=
  let boundaryOverlap := e.Agent.position.len + e.Settings.AgentRadius - e.Settings.BoundaryRadius
  if boundaryOverlap > 0 then
    { e with
        Agent := e.Agent.slideToPosition
          (e.Agent.position.unit.scaled (e.Settings.BoundaryRadius - e.Settings.AgentRadius)) }
  else e

open Classical in
/-- Agent-ball collision phase of `BallPushEnv.Step` (`env_ballpush.go`,
lines 176-185).  Returns the updated state and `justTouchedBall`. -/
def collision (e : BallPushEnv) : BallPushEnv × Bool :=
  let ballOverlap :=
    (e.Settings.AgentRadius + e.Settings.BallRadius) - (e.Agent.position.sub e.Ball.position).len
  if ballOverlap > 0 then
    let correctionVec := (e.Agent.position.sub e.Ball.position).unit.scaled (ballOverlap / 2)
    ({ e with
        HasTouchedBall := true
        Agent := e.Agent.slideToPosition (e.Agent.position.add correctionVec)
        Ball := e.Ball.slideToPosition (e.Ball.position.sub correctionVec) },
     !e.HasTouchedBall)
  else (e, false)

open Classical in
/-- Ball boundary containment phase of `BallPushEnv.Step`
(`env_ballpush.go`, lines 187-190). -/
def ballBoundary (e : BallPushEnv) : BallPushEnv :=
  let ballBoundaryOverlap := e.Ball.position.len + e.Settings.BallRadius - e.Settings.BoundaryRadius
  if ballBoundaryOverlap > 0 then
    { e with
        Ball := e.Ball.slideToPosition
          (e.Ball.position.unit.scaled (e.Settings.BoundaryRadius - e.Settings.BallRadius)) }
  else e

open Classical in
/-- Center check phase of `BallPushEnv.Step` (`env_ballpush.go`,
lines 192-196).  Returns the updated state and `justCenteredBall`. -/
def centerCheck (e : BallPushEnv) : BallPushEnv × Bool :=
  if e.BallInCenter ∧ e.HasCenteredBall = false then
    ({ e with HasCenteredBall := true }, true)
  else (e, false)

/-- Integration phase of `BallPushEnv.Step` (`env_ballpush.go`,
lines 198-199). -/
def integrate (e : BallPushEnv) : BallPushEnv :=
  { e with Agent := e.Agent.stepParticle, Ball := e.Ball.stepParticle }

/-- `getObservation` (`env_ballpush.go`, lines 129-145). -/
def getObservation (b : BallPushEnv) : List ℝ :=
  [b.Agent.position.x / b.Settings.BoundaryRadius,
   b.Agent.position.y / b.Settings.BoundaryRadius,
   (b.Ball.position.sub b.Agent.position).x / (2 * b.Settings.BoundaryRadius),
   (b.Ball.position.sub b.Agent.position).y / (2 * b.Settings.BoundaryRadius),
   b.Agent.velocity.x / b.Settings.AgentMaxSpeed,
   b.Agent.velocity.y / b.Settings.AgentMaxSpeed,
   b.Ball.velocity.x / b.Settings.AgentMaxSpeed,
   b.Ball.velocity.y / b.Settings.AgentMaxSpeed]

open Classical in
/-- The body of `BallPushEnv.Step` after validation (`env_ballpush.go`,
lines 155-223), as a pure function of the state and the two action
components. -/
def stepBody (e : BallPushEnv) (a0 a1 : ℝ) : BallPushEnv × StepData :=
  let e1 := applyForces e a0 a1
  let e2 := agentBoundary e1
  let c3 := collision e2
  let e4 := ballBoundary c3.1
  let c5 := centerCheck e4
  let e6 := integrate c5.1
  let ballVelTowardsCenter := e6.Ball.velocity.dot (e6.Ball.position.unit.scaled (-1))
  let reward1 := (0 : ℝ) + (if c3.2 then e.Settings.TouchBallReward else 0)
  let reward2 := reward1 + (if c5.2 then e.Settings.PlaceInCenterReward else 0)
  let reward3 := reward2 +
    e.Settings.MoveToCenterReward * ballVelTowardsCenter * e.Settings.DeltaTime / e.Settings.BoundaryRadius
  let reward4 :=
    if e6.HasTouchedBall = false then
      let agentBallDir := (e6.Ball.position.sub e6.Agent.position).unit
      let agentVelTowardsBall := e6.Agent.velocity.dot agentBallDir
      reward3 + e.Settings.MoveToBallReward * agentVelTowardsBall * e.Settings.DeltaTime /
        (2 * e.Settings.BoundaryRadius)
    else reward3
  (e6, ⟨e6.getObservation, reward4, false⟩)

open Classical in
/-- `BallPushEnv.Step` (`env_ballpush.go`, lines 152-224): validation
failure is a panic, modelled as `none`. -/
def step (e : BallPushEnv) (action : List ℝ) : Option (BallPushEnv × StepData) :=
  if validAction action 2 then some (e.stepBody (action.getD 0 0) (action.getD 1 0)) else none

/-- `BallPushEnv.Reset` (`env_ballpush.go`, lines 112-127): the four
`rand.Float64()` draws (each in `[0, 1)`) are explicit parameters. -/
def reset (b : BallPushEnv) (r1 r2 r3 r4 : ℝ) : BallPushEnv × ResetData :=
  let agent :=
    (b.Agent.slideToPosition
      ((Vec.mk 0 (r1 * b.Settings.BoundaryRadius * 0.75)).rotated (r2 * 2 * Real.pi))).setVelocity
      Vec.zv
  let ball :=
    (b.Ball.slideToPosition
      ((Vec.mk 0 (r3 * b.Settings.BoundaryRadius * 0.75)).rotated (r4 * 2 * Real.pi))).setVelocity
      Vec.zv
  let b' : BallPushEnv :=
    { b with Agent := agent, Ball := ball, HasTouchedBall := false, HasCenteredBall := false }
  (b', ⟨b'.getObservation⟩)

/-- `NewBallPushEnv` (`env_ballpush.go`, lines 63-72): fresh particles at the
origin with mass 1 and the settings' time step, followed by a `Reset` whose
four random draws are explicit parameters. -/
def newEnv (settings : BallPushSettings) (r1 r2 r3 r4 : ℝ) : BallPushEnv × ResetData :=
  reset
    ⟨VerletParticle.new Vec.zv 1 settings.DeltaTime,
     VerletParticle.new Vec.zv 1 settings.DeltaTime,
     false, false, settings⟩ r1 r2 r3 r4

end BallPushEnv

/-- The action-consuming prefix of `WalkerEnv.Step` (`env_walker.go`,
lines 138-139): the four components handed to `SetMotorSpeeds`.  The walker
performs no action validation; the only failure is a Go index-out-of-range
panic when the action has fewer than 4 components (modelled as `none`).  The
subsequent `world.Step` call is the external Box2D engine and is not
modelled. -/
def walkerReadAction (action : List ℝ) : Option (ℝ × ℝ × ℝ × ℝ) :=
  if h : 4 ≤ action.length then
    some (action[0], action[1], action[2], action[3])
  else none

namespace VerletParticle

/-- Shared helper: iterating `stepParticle` with no accumulated force or
impulse keeps force/impulse zero and moves both positions arithmetically. -/
theorem iterate_free (p : VerletParticle) (hf : p.currentForce = Vec.zv)
    (hi : p.currentImpulse = Vec.zv) (n : ℕ) :
    (stepParticle^[n] p).currentForce = Vec.zv
    ∧ (stepParticle^[n] p).currentImpulse = Vec.zv
    ∧ (stepParticle^[n] p).mass = p.mass
    ∧ (stepParticle^[n] p).dt = p.dt
    ∧ (stepParticle^[n] p).currentPosition
        = p.currentPosition.add ((p.currentPosition.sub p.previousPosition).scaled n)
    ∧ (stepParticle^[n] p).previousPosition
        = p.currentPosition.add ((p.currentPosition.sub p.previousPosition).scaled ((n : ℝ) - 1)) := by
  induction n with
  | zero =>
    refine ⟨hf, hi, rfl, rfl, ?_, ?_⟩
    · simp [Vec.add, Vec.sub, Vec.scaled] <;> (constructor <;> push_cast <;> ring)
    · simp [Vec.add, Vec.sub, Vec.scaled] <;> (constructor <;> push_cast <;> ring)
  | succ n ih =>
    obtain ⟨h1, h2, h3, h4, h5, h6⟩ := ih
    rw [Function.iterate_succ_apply']
    refine ⟨rfl, rfl, h3, h4, ?_, ?_⟩
    · simp only [stepParticle, h1, h2, h5, h6]
      simp [Vec.add, Vec.sub, Vec.scaled, Vec.zv] <;> (constructor <;> push_cast <;> ring)
    · simp only [stepParticle, h5]
      simp [Vec.add, Vec.sub, Vec.scaled] <;> (constructor <;> push_cast <;> ring)

end VerletParticle

/-- C8: a `VerletParticle` whose accumulated force and impulse are both zero
(and on which no `ApplyForce`/`ApplyImpulse` call is made) advances
`currentPosition` by the constant displacement
`currentPosition - previousPosition` at every `stepParticle` call, and
`Velocity()` reads the same value — that displacement divided by the time
step — after every one of arbitrarily many repeated `stepParticle` calls. -/
theorem verlet_zero_force_constant_velocity (p : VerletParticle)
    (hf : p.currentForce = Vec.zv) (hi : p.currentImpulse = Vec.zv) (n : ℕ) :
    (VerletParticle.stepParticle^[n + 1] p).currentPosition.sub
        (VerletParticle.stepParticle^[n] p).currentPosition
      = p.currentPosition.sub p.previousPosition
    ∧ (VerletParticle.stepParticle^[n + 1] p).velocity
      = (p.currentPosition.sub p.previousPosition).scaled (1 / p.dt) := by
  obtain ⟨h1, h2, h3, h4, h5, h6⟩ := p.iterate_free hf hi n
  constructor
  · obtain ⟨_, _, _, _, h5', _⟩ := p.iterate_free hf hi (n + 1)
    rw [h5, h5']
    simp [Vec.add, Vec.sub, Vec.scaled] <;> (constructor <;> push_cast <;> ring)
  · rw [Function.iterate_succ_apply']
    simp only [VerletParticle.stepParticle, VerletParticle.velocity, h1, h2, h3, h4, h5, h6]
    simp [Vec.add, Vec.sub, Vec.scaled, Vec.zv] <;>
      (constructor <;> push_cast <;> ring_nf <;> norm_num <;> ring_nf)

/-- Witness for C8 at a concrete particle (position `(1,0)`, previous
position `(0,0)`, mass 1, time step 1) after two steps. -/
theorem verlet_zero_force_constant_velocity_witness :
    (VerletParticle.stepParticle^[2 + 1]
        (⟨⟨1, 0⟩, ⟨0, 0⟩, 1, Vec.zv, Vec.zv, Vec.zv, Vec.zv, 1⟩ : VerletParticle)).currentPosition.sub
        (VerletParticle.stepParticle^[2]
          (⟨⟨1, 0⟩, ⟨0, 0⟩, 1, Vec.zv, Vec.zv, Vec.zv, Vec.zv, 1⟩ : VerletParticle)).currentPosition
      = Vec.sub ⟨1, 0⟩ ⟨0, 0⟩
    ∧ (VerletParticle.stepParticle^[2 + 1]
        (⟨⟨1, 0⟩, ⟨0, 0⟩, 1, Vec.zv, Vec.zv, Vec.zv, Vec.zv, 1⟩ : VerletParticle)).velocity
      = (Vec.sub ⟨1, 0⟩ ⟨0, 0⟩).scaled (1 / 1) :=
  verlet_zero_force_constant_velocity _ rfl rfl 2

/-- C10: `SlideToPosition` and `SetVelocity` touch only the position pair:
the cached `recentVelocity`/`recentAcceleration` returned by `Velocity()`
and `Acceleration()` are unchanged (so a read between such a call and the
next `StepParticle` still sees the values computed at the most recent
`StepParticle`), as are mass, accumulated force/impulse and the time step;
a freshly created particle reads zero for both. -/
theorem slide_setVelocity_frame (p : VerletParticle) (q v pos : Vec) (m dt : ℝ) :
    ((p.slideToPosition q).velocity = p.velocity
      ∧ (p.slideToPosition q).acceleration = p.acceleration
      ∧ (p.slideToPosition q).currentPosition = q
      ∧ (p.slideToPosition q).previousPosition = p.previousPosition
      ∧ (p.slideToPosition q).mass = p.mass
      ∧ (p.slideToPosition q).currentForce = p.currentForce
      ∧ (p.slideToPosition q).currentImpulse = p.currentImpulse
      ∧ (p.slideToPosition q).dt = p.dt)
    ∧ ((p.setVelocity v).velocity = p.velocity
      ∧ (p.setVelocity v).acceleration = p.acceleration
      ∧ (p.setVelocity v).currentPosition = p.currentPosition
      ∧ (p.setVelocity v).previousPosition = p.currentPosition.sub (v.scaled p.dt)
      ∧ (p.setVelocity v).mass = p.mass
      ∧ (p.setVelocity v).currentForce = p.currentForce
      ∧ (p.setVelocity v).currentImpulse = p.currentImpulse
      ∧ (p.setVelocity v).dt = p.dt)
    ∧ ((VerletParticle.new pos m dt).velocity = Vec.zv
      ∧ (VerletParticle.new pos m dt).acceleration = Vec.zv) :=
  ⟨⟨rfl, rfl, rfl, rfl, rfl, rfl, rfl, rfl⟩,
   ⟨rfl, rfl, rfl, rfl, rfl, rfl, rfl, rfl⟩,
   rfl, rfl⟩

/-- C4 counterexample: on a fresh particle (cached velocity zero),
`SetVelocity((1,0))` followed immediately by a `Velocity()` read returns
`(0,0)`, not the velocity `(1,0)` that was just set — `Velocity()` reads the
cached `recentVelocity`, which `SetVelocity` does not update. -/
theorem setVelocity_read_counterexample :
    ((VerletParticle.new Vec.zv 1 (1 / 60)).setVelocity ⟨1, 0⟩).velocity = Vec.zv
    ∧ ((VerletParticle.new Vec.zv 1 (1 / 60)).setVelocity ⟨1, 0⟩).velocity ≠ (⟨1, 0⟩ : Vec) := by
  constructor
  · rfl
  · intro h
    have hx := congrArg Vec.x h
    simp [VerletParticle.new, VerletParticle.setVelocity, VerletParticle.velocity, Vec.zv] at hx

/-- C4 amended: `SetVelocity(v)` leaves `Position()` unchanged and also
leaves the `Velocity()` read unchanged (it still returns the cached value
from the most recent `StepParticle`); what it does set is the velocity
implicit in the position pair — `(currentPosition - previousPosition)/dt`
equals `v` — so the next `StepParticle` (with no accumulated force or
impulse) moves the particle by `v*dt` and its recomputed `Velocity()` read
then equals `v`. -/
theorem setVelocity_behaviour (p : VerletParticle) (v : Vec)
    (hf : p.currentForce = Vec.zv) (hi : p.currentImpulse = Vec.zv) (hdt : p.dt ≠ 0) :
    (p.setVelocity v).currentPosition = p.currentPosition
    ∧ (p.setVelocity v).velocity = p.velocity
    ∧ ((p.setVelocity v).currentPosition.sub (p.setVelocity v).previousPosition).scaled (1 / p.dt) = v
    ∧ (p.setVelocity v).stepParticle.velocity = v := by
  refine ⟨rfl, rfl, ?_, ?_⟩
  · simp only [VerletParticle.setVelocity, VerletParticle.currentPosition]
    simp [Vec.sub, Vec.scaled]
    cases v with
    | mk a b =>
      simp
      constructor <;> field_simp
  · simp only [VerletParticle.stepParticle, VerletParticle.velocity, VerletParticle.setVelocity, hf, hi]
    simp [Vec.add, Vec.sub, Vec.scaled, Vec.zv]
    cases v with
    | mk a b =>
      simp
      constructor <;> field_simp <;> ring

/-- Witness for C4's amended theorem at a concrete particle and velocity. -/
theorem setVelocity_behaviour_witness :
    ((VerletParticle.new ⟨2, 3⟩ 1 (1 / 60)).setVelocity ⟨1, 0⟩).currentPosition = ⟨2, 3⟩
    ∧ ((VerletParticle.new ⟨2, 3⟩ 1 (1 / 60)).setVelocity ⟨1, 0⟩).velocity = Vec.zv
    ∧ (((VerletParticle.new ⟨2, 3⟩ 1 (1 / 60)).setVelocity ⟨1, 0⟩).currentPosition.sub
        ((VerletParticle.new ⟨2, 3⟩ 1 (1 / 60)).setVelocity ⟨1, 0⟩).previousPosition).scaled
        (1 / (VerletParticle.new ⟨2, 3⟩ 1 (1 / 60)).dt) = ⟨1, 0⟩
    ∧ ((VerletParticle.new ⟨2, 3⟩ 1 (1 / 60)).setVelocity ⟨1, 0⟩).stepParticle.velocity = ⟨1, 0⟩ :=
  setVelocity_behaviour (VerletParticle.new ⟨2, 3⟩ 1 (1 / 60)) ⟨1, 0⟩ rfl rfl
    (by norm_num [VerletParticle.new])

namespace CartPoleEnv

/-- Shared helper: the settings record is unchanged by `stepBody`. -/
theorem stepBody_settings (e : CartPoleEnv) (f : ℝ) : (e.stepBody f).1.Settings = e.Settings := rfl

/-- Shared helper: the settings record is unchanged by `traj`. -/
theorem traj_settings (actions : List ℝ) : ∀ e : CartPoleEnv, (e.traj actions).Settings = e.Settings := by
  induction actions with
  | nil => intro e; rfl
  | cons a as ih =>
    intro e
    rw [traj, List.foldl_cons]
    exact ih (e.stepBody a).1

/-- Shared helper: the velocity clamp used twice in `CartPoleEnv.Step`
bounds the result by `M` in absolute value whenever `0 ≤ M`. -/
theorem clamp_bound (M v : ℝ) (h : 0 ≤ M) :
    |if v > M then M else if v < -M then -M else v| ≤ M := by
  split_ifs with h1 h2
  · rw [abs_of_nonneg h]
  · rw [abs_neg, abs_of_nonneg h]
  · push_neg at h1 h2
    exact abs_le.mpr ⟨h2, h1⟩

/-- Shared helper: after any `stepBody`, the cart velocity and the pole
angular velocity are within the configured maxima (assuming the maxima are
nonnegative). -/
theorem stepBody_velocity_bound (e : CartPoleEnv) (f : ℝ)
    (h1 : 0 ≤ e.Settings.MaxVelocity) (h2 : 0 ≤ e.Settings.MaxRotationalVelocity) :
    |(e.stepBody f).1.BoxVelocity| ≤ e.Settings.MaxVelocity
    ∧ |(e.stepBody f).1.PoleRotationalVelocity| ≤ e.Settings.MaxRotationalVelocity :=
  ⟨clamp_bound _ _ h1, clamp_bound _ _ h2⟩

end CartPoleEnv

/-- C6: starting from any `Reset` (which zeroes both velocities) and
applying any finite sequence of `Step` bodies, the cart velocity stays
within `MaxVelocity` and the pole angular velocity within
`MaxRotationalVelocity` in absolute value (for nonnegative configured
maxima; every state reached after a `Step` of the sequence is of this
form for a prefix of the sequence). -/
theorem cartPole_velocity_bounds (e : CartPoleEnv) (r1 r2 : ℝ) (actions : List ℝ)
    (hva : ∀ f ∈ actions, |f| ≤ 1)
    (h1 : 0 ≤ e.Settings.MaxVelocity) (h2 : 0 ≤ e.Settings.MaxRotationalVelocity) :
    |(CartPoleEnv.traj (e.reset r1 r2).1 actions).BoxVelocity| ≤ e.Settings.MaxVelocity
    ∧ |(CartPoleEnv.traj (e.reset r1 r2).1 actions).PoleRotationalVelocity|
        ≤ e.Settings.MaxRotationalVelocity := by
  clear hva
  rcases actions.eq_nil_or_concat with rfl | ⟨as, a, rfl⟩
  · constructor
    · simpa [CartPoleEnv.traj, CartPoleEnv.reset] using h1
    · simpa [CartPoleEnv.traj, CartPoleEnv.reset] using h2
  · have hfold : CartPoleEnv.traj (e.reset r1 r2).1 (as ++ [a])
        = ((CartPoleEnv.traj (e.reset r1 r2).1 as).stepBody a).1 := by
      rw [CartPoleEnv.traj, List.foldl_append, List.foldl_cons, List.foldl_nil, CartPoleEnv.traj]
    have hs : (CartPoleEnv.traj (e.reset r1 r2).1 as).Settings = e.Settings := by
      rw [CartPoleEnv.traj_settings]
      rfl
    simp only [List.concat_eq_append]
    rw [hfold]
    have := CartPoleEnv.stepBody_velocity_bound (CartPoleEnv.traj (e.reset r1 r2).1 as) a
      (by rw [hs]; exact h1) (by rw [hs]; exact h2)
    rwa [hs] at this

/-- A concrete cart-pole environment with rational settings, used as a
witness input. -/
def cpW : CartPoleEnv :=
  { BoxPosition := 0
    BoxVelocity := 0
    PoleRotation := 0
    PoleRotationalVelocity := 0
    Settings :=
      { Acceleration := 1
        MaxVelocity := 3 / 2
        MaxRotationalVelocity := 2
        GravityAcceleration := 0
        TorqueMultiplier := 0
        TimeStep := 1
        MaxInitialAngle := 0
        MaxInitialOffset := 0
        FailAngle := 1
        CenteredPerStepReward := 1
        OutOfBoundsReward := -1
        PoleFallReward := -5 } }

/-- Witness for C6 at a concrete environment and a two-action sequence. -/
theorem cartPole_velocity_bounds_witness :
    |(CartPoleEnv.traj (cpW.reset 0 0).1 [1, 1]).BoxVelocity| ≤ cpW.Settings.MaxVelocity
    ∧ |(CartPoleEnv.traj (cpW.reset 0 0).1 [1, 1]).PoleRotationalVelocity|
        ≤ cpW.Settings.MaxRotationalVelocity :=
  cartPole_velocity_bounds cpW 0 0 [1, 1]
    (by intro f hf; simp at hf; rw [hf]; norm_num)
    (by norm_num [cpW]) (by norm_num [cpW])

/-- C5: `CartPoleEnv.Step` decides termination and reward from the
post-physics-update state in strict priority order: cart position outside
`[-1, 1]` terminates with `OutOfBoundsReward`; otherwise pole angle outside
`[-FailAngle, FailAngle]` terminates with `PoleFallReward`; otherwise the
step is not terminal and the reward is `CenteredPerStepReward - |position|`. -/
theorem cartPole_outcome (e e' : CartPoleEnv) (action : List ℝ) (d : StepData)
    (h : e.step action = some (e', d)) :
    d.Terminated =
        (if 1 < |e'.BoxPosition| then true
         else if e.Settings.FailAngle < |e'.PoleRotation| then true
         else false)
    ∧ d.Reward =
        (if 1 < |e'.BoxPosition| then e.Settings.OutOfBoundsReward
         else if e.Settings.FailAngle < |e'.PoleRotation| then e.Settings.PoleFallReward
         else e.Settings.CenteredPerStepReward - |e'.BoxPosition|) := by
  by_cases hv : validAction action 1
  · rw [CartPoleEnv.step, if_pos hv, Option.some.injEq] at h
    have hd : d = (e.stepBody action.headI).2 := by rw [h]
    have he : e' = (e.stepBody action.headI).1 := by rw [h]
    subst hd he
    clear h hv
    generalize action.headI = f
    unfold CartPoleEnv.stepBody
    dsimp only
    have habs1 : ∀ p : ℝ, (1 < |p|) ↔ (p > 1 ∨ p < -1) := by
      intro p
      rw [lt_abs, gt_iff_lt]
      constructor
      · rintro (h | h)
        · exact Or.inl h
        · exact Or.inr (by linarith)
      · rintro (h | h)
        · exact Or.inl h
        · exact Or.inr (by linarith)
    have habs2 : ∀ q : ℝ, (e.Settings.FailAngle < |q|)
        ↔ (q > e.Settings.FailAngle ∨ q < -e.Settings.FailAngle) := by
      intro q
      rw [lt_abs, gt_iff_lt]
      constructor
      · rintro (h | h)
        · exact Or.inl h
        · exact Or.inr (by linarith)
      · rintro (h | h)
        · exact Or.inl h
        · exact Or.inr (by linarith)
    simp only [habs1, habs2]
    split_ifs <;> exact ⟨rfl, by simp⟩
  · rw [CartPoleEnv.step, if_neg hv] at h
    exact absurd h (by simp)

/-- Witness for C5 at a concrete environment and action. -/
theorem cartPole_outcome_witness :
    ((cpW.stepBody ([(0 : ℝ)]).headI).2.Terminated =
        (if 1 < |(cpW.stepBody ([(0 : ℝ)]).headI).1.BoxPosition| then true
         else if cpW.Settings.FailAngle < |(cpW.stepBody ([(0 : ℝ)]).headI).1.PoleRotation| then true
         else false)
    ∧ (cpW.stepBody ([(0 : ℝ)]).headI).2.Reward =
        (if 1 < |(cpW.stepBody ([(0 : ℝ)]).headI).1.BoxPosition| then cpW.Settings.OutOfBoundsReward
         else if cpW.Settings.FailAngle < |(cpW.stepBody ([(0 : ℝ)]).headI).1.PoleRotation| then
           cpW.Settings.PoleFallReward
         else cpW.Settings.CenteredPerStepReward - |(cpW.stepBody ([(0 : ℝ)]).headI).1.BoxPosition|)) :=
  cartPole_outcome cpW (cpW.stepBody ([(0 : ℝ)]).headI).1 [0] (cpW.stepBody ([(0 : ℝ)]).headI).2
    (by rw [CartPoleEnv.step, if_pos (by constructor <;> simp)])

/-- Shared helper: the Go clamp-into-`[-1,1]` loop body computes the usual
order-theoretic clamp. -/
theorem clampOne_eq (v : ℝ) : clampOne v = max (-1) (min 1 v) := by
  unfold clampOne
  dsimp only
  rcases lt_trichotomy v (-1) with h | h | h
  · rw [if_pos h, if_neg (by norm_num), min_eq_right (by linarith), max_eq_left (le_of_lt h)]
  · subst h
    rw [if_neg (by norm_num), if_neg (by norm_num), min_eq_right (by norm_num),
      max_eq_left (by norm_num)]
  · have hin : ¬(v < -1) := by linarith
    rw [if_neg hin]
    rcases le_or_lt v 1 with h2 | h2
    · rw [if_neg (by simpa using h2), min_eq_right h2, max_eq_right (by linarith)]
    · rw [if_pos h2, min_eq_left (le_of_lt h2), max_eq_right (by norm_num)]

/-- C7: the cart-pole observation — returned by both `Step` and `Reset` for
the post-update state — is the element-wise clamp into `[-1, 1]` of the
4-vector `(cartPosition, cartVelocity/MaxVelocity, poleRotation/180,
poleRotationalVelocity/MaxRotationalVelocity)`, with the pole angle divided
by the literal constant 180. -/
theorem cartPole_observation_clamped (e : CartPoleEnv) (f r1 r2 : ℝ) :
    e.getObservation =
      [max (-1) (min 1 e.BoxPosition),
       max (-1) (min 1 (e.BoxVelocity / e.Settings.MaxVelocity)),
       max (-1) (min 1 (e.PoleRotation / 180)),
       max (-1) (min 1 (e.PoleRotationalVelocity / e.Settings.MaxRotationalVelocity))]
    ∧ (e.stepBody f).2.Observation = (e.stepBody f).1.getObservation
    ∧ (e.reset r1 r2).2.Observation = (e.reset r1 r2).1.getObservation := by
  refine ⟨?_, rfl, rfl⟩
  simp [CartPoleEnv.getObservation, clampAll, clampOne_eq]

namespace Vec

/-- Shared helper: a nonzero vector has positive length. -/
theorem len_pos (v : Vec) (h : v ≠ zv) : 0 < v.len := by
  apply Real.sqrt_pos.mpr
  rcases (show v.x ≠ 0 ∨ v.y ≠ 0 by
    by_contra hc
    push_neg at hc
    exact h (by cases v with
      | mk a b => simp [zv] at hc ⊢; exact ⟨hc.1, hc.2⟩)) with h1 | h1
  · have := mul_self_nonneg v.y
    nlinarith [mul_self_pos.mpr h1]
  · have := mul_self_nonneg v.x
    nlinarith [mul_self_pos.mpr h1]

end Vec

/-- Shared helper: `validateAction` succeeds iff the length matches and every
component has magnitude at most 1. -/
theorem validAction_iff (action : List ℝ) (n : ℕ) :
    validAction action n ↔ (action.length = n ∧ ∀ v ∈ action, |v| ≤ 1) := by
  unfold validAction
  have h1 : ∀ v : ℝ, ¬(v < -1 ∨ v > 1) ↔ |v| ≤ 1 := by
    intro v
    rw [abs_le, not_or, not_lt, not_lt]
  constructor
  · rintro ⟨ha, hb⟩
    exact ⟨ha, fun v hv => (h1 v).mp (hb v hv)⟩
  · rintro ⟨ha, hb⟩
    exact ⟨ha, fun v hv => (h1 v).mpr (hb v hv)⟩

/-- C1 counterexample: the walker's `Step` consumes the action
`[2, 0, 0, 0]` without any failure even though it contains the component 2
of magnitude greater than 1, so "for every environment, `Step` with any
component of magnitude greater than 1 fails" is false for `WalkerEnv`. -/
theorem action_validation_counterexample :
    ((2 : ℝ) ∈ ([2, 0, 0, 0] : List ℝ))
    ∧ 1 < |(2 : ℝ)|
    ∧ (walkerReadAction [2, 0, 0, 0]).isSome = true := by
  refine ⟨by simp, by norm_num, ?_⟩
  rw [walkerReadAction, dif_pos (by simp)]
  rfl

/-- C1 amended: `CartPoleEnv.Step` and `BallPushEnv.Step` fail exactly when
the action length differs from the environment's action length (1 resp. 2)
or some component has magnitude greater than 1 — in particular all-zero and
boundary (±1) actions of the right length succeed; `WalkerEnv.Step` performs
no action validation at all: it fails only (with an index-out-of-range
panic) when the action has fewer than 4 components, and accepts components
of any magnitude. -/
theorem action_validation (e : CartPoleEnv) (b : BallPushEnv) (action : List ℝ) :
    ((e.step action).isSome = true ↔ (action.length = 1 ∧ ∀ v ∈ action, |v| ≤ 1))
    ∧ ((b.step action).isSome = true ↔ (action.length = 2 ∧ ∀ v ∈ action, |v| ≤ 1))
    ∧ ((walkerReadAction action).isSome = true ↔ 4 ≤ action.length) := by
  refine ⟨?_, ?_, ?_⟩
  · rw [CartPoleEnv.step]
    split_ifs with h
    · simpa using (validAction_iff action 1).mp h
    · simp only [Option.isSome_none, Bool.false_eq_true, false_iff]
      exact fun hc => h ((validAction_iff action 1).mpr hc)
  · rw [BallPushEnv.step]
    split_ifs with h
    · simpa using (validAction_iff action 2).mp h
    · simp only [Option.isSome_none, Bool.false_eq_true, false_iff]
      exact fun hc => h ((validAction_iff action 2).mpr hc)
  · rw [walkerReadAction]
    split_ifs with h
    · simpa using h
    · simpa using h

/-- C3 counterexample: the action `(1/2, 0)` has magnitude 1/2, which lies
in `(0, 1]`, yet the control force applied by `BallPushEnv.Step` with the
default settings is `(20, 0)` — the unit vector scaled by
`AgentAcceleration` — and not the magnitude-preserving `(10, 0)`. -/
theorem ballPush_control_counterexample :
    0 < Vec.len ⟨1 / 2, 0⟩
    ∧ Vec.len ⟨1 / 2, 0⟩ ≤ 1
    ∧ BallPushEnv.agentControlForce DefaultBallPushSettings (1 / 2) 0 = ⟨20, 0⟩
    ∧ (⟨(1 : ℝ) / 2, 0⟩ : Vec).scaled DefaultBallPushSettings.AgentAcceleration = ⟨10, 0⟩
    ∧ ((⟨20, 0⟩ : Vec) ≠ (⟨10, 0⟩ : Vec)) := by
  refine ⟨?_, ?_, ?_, ?_, ?_⟩
  · rw [Vec.len_axis_x]
    norm_num
  · rw [Vec.len_axis_x, abs_of_pos (by norm_num : (0:ℝ) < 1 / 2)]
    norm_num
  · rw [BallPushEnv.agentControlForce, BallPushEnv.controlVec]
    rw [if_pos (by rw [Vec.len_axis_x]; norm_num)]
    rw [Vec.unit, Vec.len_axis_x]
    simp [Vec.scaled, DefaultBallPushSettings]
    norm_num
    rw [abs_of_pos (by norm_num : (0:ℝ) < 1 / 2)]
    norm_num
  · simp [Vec.scaled, DefaultBallPushSettings]
    norm_num
  · intro hc
    have hx := congrArg Vec.x hc
    norm_num at hx

/-- C3 amended: `BallPushEnv.Step` normalizes the control vector to unit
length for every action of positive magnitude — not only those with
magnitude exceeding 1 — so the control force is always the unit vector of
the action scaled by `AgentAcceleration` (magnitude `|AgentAcceleration|`)
for nonzero actions, and zero for the zero action. -/
theorem ballPush_control_normalized (s : BallPushSettings) (a0 a1 : ℝ)
    (h : ¬(a0 = 0 ∧ a1 = 0)) :
    BallPushEnv.agentControlForce s a0 a1 = (Vec.unit ⟨a0, a1⟩).scaled s.AgentAcceleration
    ∧ Vec.len (BallPushEnv.agentControlForce s a0 a1) = |s.AgentAcceleration|
    ∧ BallPushEnv.agentControlForce s 0 0 = Vec.zv := by
  have hne : (⟨a0, a1⟩ : Vec) ≠ Vec.zv := by
    intro hc
    apply h
    exact ⟨by simpa [Vec.zv] using congrArg Vec.x hc, by simpa [Vec.zv] using congrArg Vec.y hc⟩
  have hpos : 0 < Vec.len ⟨a0, a1⟩ := Vec.len_pos _ hne
  have hcv : BallPushEnv.agentControlForce s a0 a1
      = (Vec.unit ⟨a0, a1⟩).scaled s.AgentAcceleration := by
    rw [BallPushEnv.agentControlForce, BallPushEnv.controlVec]
    rw [if_pos hpos]
  refine ⟨hcv, ?_, ?_⟩
  · rw [hcv, Vec.len_scaled, Vec.len_unit _ hne, mul_one]
  · rw [BallPushEnv.agentControlForce, BallPushEnv.controlVec]
    rw [if_neg (by rw [Vec.len_axis]; norm_num)]
    simp [Vec.scaled, Vec.zv]

/-- Witness for C3's amended theorem at the default settings and the
in-range nonzero action `(1, 0)`. -/
theorem ballPush_control_normalized_witness :
    BallPushEnv.agentControlForce DefaultBallPushSettings 1 0
      = (Vec.unit ⟨1, 0⟩).scaled DefaultBallPushSettings.AgentAcceleration
    ∧ Vec.len (BallPushEnv.agentControlForce DefaultBallPushSettings 1 0)
      = |DefaultBallPushSettings.AgentAcceleration|
    ∧ BallPushEnv.agentControlForce DefaultBallPushSettings 0 0 = Vec.zv :=
  ballPush_control_normalized DefaultBallPushSettings 1 0 (by norm_num)

namespace BallPushEnv

/-- Shared helper: the state component of `stepBody` is the integration of
the constraint-and-check phases, in source order. -/
theorem stepBody_fst (e : BallPushEnv) (a0 a1 : ℝ) :
    (e.stepBody a0 a1).1
      = integrate (centerCheck (ballBoundary (collision (agentBoundary (applyForces e a0 a1))).1)).1 :=
  rfl

/-- The post-step state of a `Step` with action pair `a`. -/
def stepState (e : BallPushEnv) (a : ℝ × ℝ) : BallPushEnv := (e.stepBody a.1 a.2).1

/-- `justTouchedBall` of a step: whether this step grants the one-shot
touch bonus. -/
def grantsTouch (e : BallPushEnv) (a : ℝ × ℝ) : Bool :=
  (collision (agentBoundary (applyForces e a.1 a.2))).2

/-- `justCenteredBall` of a step: whether this step grants the one-shot
center bonus. -/
def grantsCenter (e : BallPushEnv) (a : ℝ × ℝ) : Bool :=
  (centerCheck (ballBoundary (collision (agentBoundary (applyForces e a.1 a.2))).1)).2

/-- Number of steps of an action sequence whose reward includes the
touch bonus. -/
def countTouch : BallPushEnv → List (ℝ × ℝ) → ℕ
  | _, [] => 0
  | e, a :: as => (if grantsTouch e a then 1 else 0) + countTouch (stepState e a) as

/-- Number of steps of an action sequence whose reward includes the
center bonus. -/
def countCenter : BallPushEnv → List (ℝ × ℝ) → ℕ
  | _, [] => 0
  | e, a :: as => (if grantsCenter e a then 1 else 0) + countCenter (stepState e a) as

/-- The continuous shaping part of the ball-push reward (the non-one-shot
terms of `env_ballpush.go`, lines 201-216). -/
def shapingReward (e : BallPushEnv) (a0 a1 : ℝ) : ℝ :=
  let e6 := (e.stepBody a0 a1).1
  let ballVelTowardsCenter := e6.Ball.velocity.dot (e6.Ball.position.unit.scaled (-1))
  let r := e.Settings.MoveToCenterReward * ballVelTowardsCenter * e.Settings.DeltaTime /
    e.Settings.BoundaryRadius
  if e6.HasTouchedBall = false then
    r + e.Settings.MoveToBallReward *
      (e6.Agent.velocity.dot ((e6.Ball.position.sub e6.Agent.position).unit)) *
      e.Settings.DeltaTime / (2 * e.Settings.BoundaryRadius)
  else r

/-- Shared helper: how one step transforms `HasTouchedBall`, and that a
touch grant can only happen when the flag was clear. -/
theorem touch_flags (e : BallPushEnv) (a : ℝ × ℝ) :
    (stepState e a).HasTouchedBall = (e.HasTouchedBall || grantsTouch e a)
    ∧ (grantsTouch e a = true → e.HasTouchedBall = false) := by
  have h2 : ∀ s : BallPushEnv, (centerCheck s).1.HasTouchedBall = s.HasTouchedBall := by
    intro s
    unfold centerCheck
    split <;> rfl
  have h3 : ∀ s : BallPushEnv, (ballBoundary s).HasTouchedBall = s.HasTouchedBall := by
    intro s
    unfold ballBoundary
    dsimp only
    split <;> rfl
  have h4 : ∀ s : BallPushEnv, (collision s).1.HasTouchedBall = (s.HasTouchedBall || (collision s).2)
      ∧ ((collision s).2 = true → s.HasTouchedBall = false) := by
    intro s
    unfold collision
    dsimp only
    split
    · constructor
      · cases hsb : s.HasTouchedBall <;> simp [hsb]
      · cases hsb : s.HasTouchedBall <;> simp [hsb]
    · exact ⟨by simp, by simp⟩
  have h6 : ∀ s : BallPushEnv, (agentBoundary s).HasTouchedBall = s.HasTouchedBall := by
    intro s
    unfold agentBoundary
    dsimp only
    split <;> rfl
  constructor
  · show ((e.stepBody a.1 a.2).1).HasTouchedBall = _
    rw [stepBody_fst]
    show (centerCheck _).1.HasTouchedBall = _
    rw [h2, h3, (h4 _).1, h6]
    rfl
  · intro hg
    have := (h4 (agentBoundary (applyForces e a.1 a.2))).2 hg
    rwa [h6] at this

/-- Shared helper: how one step transforms `HasCenteredBall`, and that a
center grant can only happen when the flag was clear. -/
theorem center_flags (e : BallPushEnv) (a : ℝ × ℝ) :
    (stepState e a).HasCenteredBall = (e.HasCenteredBall || grantsCenter e a)
    ∧ (grantsCenter e a = true → e.HasCenteredBall = false) := by
  have h2 : ∀ s : BallPushEnv, (centerCheck s).1.HasCenteredBall = (s.HasCenteredBall || (centerCheck s).2)
      ∧ ((centerCheck s).2 = true → s.HasCenteredBall = false) := by
    intro s
    unfold centerCheck
    split
    · next hcond => exact ⟨by simp, fun _ => hcond.2⟩
    · exact ⟨by simp, by simp⟩
  have h3 : ∀ s : BallPushEnv, (ballBoundary s).HasCenteredBall = s.HasCenteredBall := by
    intro s
    unfold ballBoundary
    dsimp only
    split <;> rfl
  have h4 : ∀ s : BallPushEnv, (collision s).1.HasCenteredBall = s.HasCenteredBall := by
    intro s
    unfold collision
    dsimp only
    split <;> rfl
  have h6 : ∀ s : BallPushEnv, (agentBoundary s).HasCenteredBall = s.HasCenteredBall := by
    intro s
    unfold agentBoundary
    dsimp only
    split <;> rfl
  constructor
  · show ((e.stepBody a.1 a.2).1).HasCenteredBall = _
    rw [stepBody_fst]
    show (centerCheck _).1.HasCenteredBall = _
    rw [(h2 _).1, h3, h4, h6]
    rfl
  · intro hg
    have := (h2 (ballBoundary (collision (agentBoundary (applyForces e a.1 a.2))).1)).2 hg
    rwa [h3, h4, h6] at this

/-- Shared helper: once `HasTouchedBall` is set, no later step grants the
touch bonus. -/
theorem countTouch_zero (as : List (ℝ × ℝ)) :
    ∀ e : BallPushEnv, e.HasTouchedBall = true → countTouch e as = 0 := by
  induction as with
  | nil => intro e _; rfl
  | cons a as ih =>
    intro e he
    rw [countTouch]
    have hg : grantsTouch e a = false := by
      cases hgt : grantsTouch e a
      · rfl
      · have := (touch_flags e a).2 hgt
        rw [he] at this
        cases this
    rw [hg]
    simp only [Bool.false_eq_true, if_false, Nat.zero_add]
    exact ih _ (by rw [(touch_flags e a).1, he, Bool.true_or])

/-- Shared helper: once `HasCenteredBall` is set, no later step grants the
center bonus. -/
theorem countCenter_zero (as : List (ℝ × ℝ)) :
    ∀ e : BallPushEnv, e.HasCenteredBall = true → countCenter e as = 0 := by
  induction as with
  | nil => intro e _; rfl
  | cons a as ih =>
    intro e he
    rw [countCenter]
    have hg : grantsCenter e a = false := by
      cases hgt : grantsCenter e a
      · rfl
      · have := (center_flags e a).2 hgt
        rw [he] at this
        cases this
    rw [hg]
    simp only [Bool.false_eq_true, if_false, Nat.zero_add]
    exact ih _ (by rw [(center_flags e a).1, he, Bool.true_or])

/-- Shared helper: from a clear flag, at most one touch grant in any run. -/
theorem countTouch_le_one (as : List (ℝ × ℝ)) :
    ∀ e : BallPushEnv, e.HasTouchedBall = false → countTouch e as ≤ 1 := by
  induction as with
  | nil => intro e _; simp [countTouch]
  | cons a as ih =>
    intro e he
    rw [countTouch]
    cases hg : grantsTouch e a
    · simp only [Bool.false_eq_true, if_false, Nat.zero_add]
      exact ih _ (by rw [(touch_flags e a).1, he, hg, Bool.or_false])
    · simp only [if_true]
      have hz : countTouch (stepState e a) as = 0 :=
        countTouch_zero as _ (by rw [(touch_flags e a).1, hg, Bool.or_true])
      rw [hz]

/-- Shared helper: from a clear flag, at most one center grant in any run. -/
theorem countCenter_le_one (as : List (ℝ × ℝ)) :
    ∀ e : BallPushEnv, e.HasCenteredBall = false → countCenter e as ≤ 1 := by
  induction as with
  | nil => intro e _; simp [countCenter]
  | cons a as ih =>
    intro e he
    rw [countCenter]
    cases hg : grantsCenter e a
    · simp only [Bool.false_eq_true, if_false, Nat.zero_add]
      exact ih _ (by rw [(center_flags e a).1, he, hg, Bool.or_false])
    · simp only [if_true]
      have hz : countCenter (stepState e a) as = 0 :=
        countCenter_zero as _ (by rw [(center_flags e a).1, hg, Bool.or_true])
      rw [hz]

end BallPushEnv

/-- C9: within one ball-push episode (any run of `Step` calls from a state
with both one-shot flags clear, as `Reset` produces), the touch bonus is
granted — and hence `TouchBallReward` included in the returned reward — on
at most one step, and likewise the center bonus/`PlaceInCenterReward`, no
matter how often the overlap or ball-in-center condition holds; the step
reward decomposes as the two gated bonuses plus the continuous shaping
terms, and `Reset` clears both flags so the bonuses can be granted again. -/
theorem ballPush_one_shot_bonuses (e : BallPushEnv) (as : List (ℝ × ℝ))
    (a0 a1 r1 r2 r3 r4 : ℝ)
    (ht : e.HasTouchedBall = false) (hc : e.HasCenteredBall = false) :
    BallPushEnv.countTouch e as ≤ 1
    ∧ BallPushEnv.countCenter e as ≤ 1
    ∧ (e.stepBody a0 a1).2.Reward
        = (if BallPushEnv.grantsTouch e (a0, a1) then e.Settings.TouchBallReward else 0)
          + (if BallPushEnv.grantsCenter e (a0, a1) then e.Settings.PlaceInCenterReward else 0)
          + BallPushEnv.shapingReward e a0 a1
    ∧ (e.reset r1 r2 r3 r4).1.HasTouchedBall = false
    ∧ (e.reset r1 r2 r3 r4).1.HasCenteredBall = false := by
  refine ⟨BallPushEnv.countTouch_le_one as e ht, BallPushEnv.countCenter_le_one as e hc,
    ?_, rfl, rfl⟩
  show (BallPushEnv.stepBody e a0 a1).2.Reward = _
  unfold BallPushEnv.shapingReward BallPushEnv.grantsTouch BallPushEnv.grantsCenter
  unfold BallPushEnv.stepBody
  dsimp only
  split_ifs <;> ring

/-- Witness for C9 at a freshly reset default environment, the empty action
sequence, and the zero action. -/
theorem ballPush_one_shot_bonuses_witness :
    BallPushEnv.countTouch (BallPushEnv.newEnv DefaultBallPushSettings 0 0 0 0).1 [] ≤ 1
    ∧ BallPushEnv.countCenter (BallPushEnv.newEnv DefaultBallPushSettings 0 0 0 0).1 [] ≤ 1
    ∧ ((BallPushEnv.newEnv DefaultBallPushSettings 0 0 0 0).1.stepBody 0 0).2.Reward
        = (if BallPushEnv.grantsTouch (BallPushEnv.newEnv DefaultBallPushSettings 0 0 0 0).1 (0, 0)
            then (BallPushEnv.newEnv DefaultBallPushSettings 0 0 0 0).1.Settings.TouchBallReward
            else 0)
          + (if BallPushEnv.grantsCenter (BallPushEnv.newEnv DefaultBallPushSettings 0 0 0 0).1 (0, 0)
             then (BallPushEnv.newEnv DefaultBallPushSettings 0 0 0 0).1.Settings.PlaceInCenterReward
             else 0)
          + BallPushEnv.shapingReward (BallPushEnv.newEnv DefaultBallPushSettings 0 0 0 0).1 0 0
    ∧ ((BallPushEnv.newEnv DefaultBallPushSettings 0 0 0 0).1.reset 0 0 0 0).1.HasTouchedBall = false
    ∧ ((BallPushEnv.newEnv DefaultBallPushSettings 0 0 0 0).1.reset 0 0 0 0).1.HasCenteredBall = false :=
  ballPush_one_shot_bonuses (BallPushEnv.newEnv DefaultBallPushSettings 0 0 0 0).1 [] 0 0 0 0 0 0
    rfl rfl

namespace BallPushEnv

/-- Shared helper: phases before the ball clamp do not change the settings. -/
theorem phases_settings (e : BallPushEnv) (a0 a1 : ℝ) :
    (applyForces e a0 a1).Settings = e.Settings
    ∧ (agentBoundary e).Settings = e.Settings
    ∧ (collision e).1.Settings = e.Settings
    ∧ (ballBoundary e).Settings = e.Settings := by
  refine ⟨rfl, ?_, ?_, ?_⟩
  · unfold agentBoundary
    dsimp only
    split <;> rfl
  · unfold collision
    dsimp only
    split <;> rfl
  · unfold ballBoundary
    dsimp only
    split <;> rfl

/-- Shared helper: the agent's radial clamp establishes
`len ≤ BoundaryRadius - AgentRadius`. -/
theorem agentBoundary_containment (s : BallPushEnv)
    (h : s.Settings.AgentRadius ≤ s.Settings.BoundaryRadius) :
    Vec.len (agentBoundary s).Agent.position
      ≤ s.Settings.BoundaryRadius - s.Settings.AgentRadius := by
  unfold agentBoundary
  dsimp only
  split_ifs with hov
  · have hlen : 0 < Vec.len s.Agent.position := by
      by_contra hcon
      push_neg at hcon
      have h0 : Vec.len s.Agent.position = 0 :=
        le_antisymm hcon (Vec.len_nonneg _)
      rw [h0] at hov
      linarith
    have hne : s.Agent.position ≠ Vec.zv := by
      intro hz
      rw [hz] at hlen
      have : Vec.len Vec.zv = 0 := by
        rw [Vec.zv, Vec.len_axis]
        norm_num
      rw [this] at hlen
      linarith
    show Vec.len (s.Agent.position.unit.scaled (s.Settings.BoundaryRadius - s.Settings.AgentRadius)) ≤ _
    rw [Vec.len_scaled, Vec.len_unit _ hne, mul_one, abs_of_nonneg (by linarith)]
  · push_neg at hov
    linarith

/-- Shared helper: the ball's radial clamp establishes
`len ≤ BoundaryRadius - BallRadius`. -/
theorem ballBoundary_containment (s : BallPushEnv)
    (h : s.Settings.BallRadius ≤ s.Settings.BoundaryRadius) :
    Vec.len (ballBoundary s).Ball.position
      ≤ s.Settings.BoundaryRadius - s.Settings.BallRadius := by
  unfold ballBoundary
  dsimp only
  split_ifs with hov
  · have hlen : 0 < Vec.len s.Ball.position := by
      by_contra hcon
      push_neg at hcon
      have h0 : Vec.len s.Ball.position = 0 :=
        le_antisymm hcon (Vec.len_nonneg _)
      rw [h0] at hov
      linarith
    have hne : s.Ball.position ≠ Vec.zv := by
      intro hz
      rw [hz] at hlen
      have : Vec.len Vec.zv = 0 := by
        rw [Vec.zv, Vec.len_axis]
        norm_num
      rw [this] at hlen
      linarith
    show Vec.len (s.Ball.position.unit.scaled (s.Settings.BoundaryRadius - s.Settings.BallRadius)) ≤ _
    rw [Vec.len_scaled, Vec.len_unit _ hne, mul_one, abs_of_nonneg (by linarith)]
  · push_neg at hov
    linarith

end BallPushEnv

/-- C2 amended: within `BallPushEnv.Step` the radial clamps establish
containment at the moment they run — right after the agent's clamp the
agent is within `BoundaryRadius - AgentRadius` of the center, and right
after the ball's clamp the ball is within `BoundaryRadius - BallRadius` —
but both particles are Verlet-integrated *after* these clamps (the state
returned by `Step` is the integration of the post-clamp state), so the
distances after `Step` returns can exceed these limits (see the
counterexample). -/
theorem ballPush_preintegration_containment (e : BallPushEnv) (a0 a1 : ℝ)
    (hA : e.Settings.AgentRadius ≤ e.Settings.BoundaryRadius)
    (hB : e.Settings.BallRadius ≤ e.Settings.BoundaryRadius) :
    Vec.len (BallPushEnv.agentBoundary (BallPushEnv.applyForces e a0 a1)).Agent.position
      ≤ e.Settings.BoundaryRadius - e.Settings.AgentRadius
    ∧ Vec.len (BallPushEnv.ballBoundary
          (BallPushEnv.collision
            (BallPushEnv.agentBoundary (BallPushEnv.applyForces e a0 a1))).1).Ball.position
      ≤ e.Settings.BoundaryRadius - e.Settings.BallRadius
    ∧ (e.stepBody a0 a1).1
      = BallPushEnv.integrate
          (BallPushEnv.centerCheck
            (BallPushEnv.ballBoundary
              (BallPushEnv.collision
                (BallPushEnv.agentBoundary (BallPushEnv.applyForces e a0 a1))).1)).1 := by
  obtain ⟨hs1, -, -, -⟩ := BallPushEnv.phases_settings e a0 a1
  refine ⟨?_, ?_, BallPushEnv.stepBody_fst e a0 a1⟩
  · have := BallPushEnv.agentBoundary_containment (BallPushEnv.applyForces e a0 a1)
      (by rw [hs1]; exact hA)
    rwa [hs1] at this
  · set s2 := BallPushEnv.collision (BallPushEnv.agentBoundary (BallPushEnv.applyForces e a0 a1))
    have hs2 : s2.1.Settings = e.Settings := by
      obtain ⟨-, hb, -, -⟩ := BallPushEnv.phases_settings (BallPushEnv.applyForces e a0 a1) a0 a1
      obtain ⟨-, -, hcol, -⟩ :=
        BallPushEnv.phases_settings (BallPushEnv.agentBoundary (BallPushEnv.applyForces e a0 a1)) a0 a1
      rw [show s2 = BallPushEnv.collision (BallPushEnv.agentBoundary (BallPushEnv.applyForces e a0 a1))
        from rfl, hcol, hb, hs1]
    have := BallPushEnv.ballBoundary_containment s2.1 (by rw [hs2]; exact hB)
    rwa [hs2] at this

/-- Witness for C2's amended theorem at a freshly reset default
environment and the zero action. -/
theorem ballPush_preintegration_containment_witness :
    Vec.len (BallPushEnv.agentBoundary
        (BallPushEnv.applyForces (BallPushEnv.newEnv DefaultBallPushSettings 0 0 0 0).1 0 0)).Agent.position
      ≤ (BallPushEnv.newEnv DefaultBallPushSettings 0 0 0 0).1.Settings.BoundaryRadius
        - (BallPushEnv.newEnv DefaultBallPushSettings 0 0 0 0).1.Settings.AgentRadius
    ∧ Vec.len (BallPushEnv.ballBoundary
          (BallPushEnv.collision
            (BallPushEnv.agentBoundary
              (BallPushEnv.applyForces (BallPushEnv.newEnv DefaultBallPushSettings 0 0 0 0).1 0 0))).1).Ball.position
      ≤ (BallPushEnv.newEnv DefaultBallPushSettings 0 0 0 0).1.Settings.BoundaryRadius
        - (BallPushEnv.newEnv DefaultBallPushSettings 0 0 0 0).1.Settings.BallRadius
    ∧ ((BallPushEnv.newEnv DefaultBallPushSettings 0 0 0 0).1.stepBody 0 0).1
      = BallPushEnv.integrate
          (BallPushEnv.centerCheck
            (BallPushEnv.ballBoundary
              (BallPushEnv.collision
                (BallPushEnv.agentBoundary
                  (BallPushEnv.applyForces (BallPushEnv.newEnv DefaultBallPushSettings 0 0 0 0).1 0 0))).1)).1 :=
  ballPush_preintegration_containment (BallPushEnv.newEnv DefaultBallPushSettings 0 0 0 0).1 0 0
    (by norm_num [BallPushEnv.newEnv, BallPushEnv.reset, DefaultBallPushSettings])
    (by norm_num [BallPushEnv.newEnv, BallPushEnv.reset, DefaultBallPushSettings])

namespace BallPushEnv

/-- A Verlet particle lying on the y-axis with mass 1, no accumulated
force/impulse, and the default time step; used to trace concrete
trajectories. -/
def axisP (cy py vy ay : ℝ) : VerletParticle :=
  ⟨⟨0, cy⟩, ⟨0, py⟩, 1, Vec.zv, Vec.zv, ⟨0, vy⟩, ⟨0, ay⟩, 1 / 60⟩

/-- A ball-push state with both particles on the y-axis and the default
settings; used to trace concrete trajectories. -/
def axisState (ac ap av aa bc bp bv ba : ℝ) (t c : Bool) : BallPushEnv :=
  ⟨axisP ac ap av aa, axisP bc bp bv ba, t, c, DefaultBallPushSettings⟩

/-- Shared helper: the zero action yields the zero control vector. -/
theorem controlVec_zero : controlVec 0 0 = (⟨0, 0⟩ : Vec) := by
  unfold controlVec
  dsimp only
  rw [if_neg]
  rw [Vec.len_axis]
  norm_num

/-- Shared helper: one `stepBody` with the zero action from an on-axis
state in which no constraint fires (agent inside the boundary, no
agent-ball overlap, ball inside the boundary and outside the center
target): pure drag coasting. -/
theorem coast_step (ac ap av aa bc bp bv ba A Av B Bv : ℝ) (t c : Bool)
    (h1 : 0 ≤ ac) (h2 : ac ≤ 49) (h3 : ac + 3 ≤ bc) (h4 : 1 ≤ bc) (h5 : bc ≤ 48)
    (hA : A = 2 * ac - ap - av / 2400) (hAv : Av = (A - ap) * 30)
    (hB : B = 2 * bc - bp - bv / 4800) (hBv : Bv = (B - bp) * 30) :
    (BallPushEnv.stepBody (axisState ac ap av aa bc bp bv ba t c) 0 0).1
      = axisState A ac Av (-(3 / 2 * av)) B bc Bv (-(3 / 4 * bv)) t c := by
  subst hA hAv hB hBv
  have e1 : applyForces (axisState ac ap av aa bc bp bv ba t c) 0 0
      = ⟨⟨⟨0, ac⟩, ⟨0, ap⟩, 1, ⟨0, -(3 / 2 * av)⟩, Vec.zv, ⟨0, av⟩, ⟨0, aa⟩, 1 / 60⟩,
         ⟨⟨0, bc⟩, ⟨0, bp⟩, 1, ⟨0, -(3 / 4 * bv)⟩, Vec.zv, ⟨0, bv⟩, ⟨0, ba⟩, 1 / 60⟩,
         t, c, DefaultBallPushSettings⟩ := by
    unfold applyForces agentControlForce
    rw [controlVec_zero]
    unfold axisState axisP VerletParticle.applyForce VerletParticle.velocity DefaultBallPushSettings
    dsimp only
    norm_num [Vec.add, Vec.sub, Vec.scaled, Vec.zv]
    constructor <;> ring
  rw [stepBody_fst, e1]
  have e2 : agentBoundary
        ⟨⟨⟨0, ac⟩, ⟨0, ap⟩, 1, ⟨0, -(3 / 2 * av)⟩, Vec.zv, ⟨0, av⟩, ⟨0, aa⟩, 1 / 60⟩,
         ⟨⟨0, bc⟩, ⟨0, bp⟩, 1, ⟨0, -(3 / 4 * bv)⟩, Vec.zv, ⟨0, bv⟩, ⟨0, ba⟩, 1 / 60⟩,
         t, c, DefaultBallPushSettings⟩
      = ⟨⟨⟨0, ac⟩, ⟨0, ap⟩, 1, ⟨0, -(3 / 2 * av)⟩, Vec.zv, ⟨0, av⟩, ⟨0, aa⟩, 1 / 60⟩,
         ⟨⟨0, bc⟩, ⟨0, bp⟩, 1, ⟨0, -(3 / 4 * bv)⟩, Vec.zv, ⟨0, bv⟩, ⟨0, ba⟩, 1 / 60⟩,
         t, c, DefaultBallPushSettings⟩ := by
    unfold agentBoundary VerletParticle.position DefaultBallPushSettings
    dsimp only
    split_ifs with hcond
    · exfalso
      rw [Vec.len_axis, abs_of_nonneg h1] at hcond
      linarith
    · rfl
  rw [e2]
  have e3 : collision
        ⟨⟨⟨0, ac⟩, ⟨0, ap⟩, 1, ⟨0, -(3 / 2 * av)⟩, Vec.zv, ⟨0, av⟩, ⟨0, aa⟩, 1 / 60⟩,
         ⟨⟨0, bc⟩, ⟨0, bp⟩, 1, ⟨0, -(3 / 4 * bv)⟩, Vec.zv, ⟨0, bv⟩, ⟨0, ba⟩, 1 / 60⟩,
         t, c, DefaultBallPushSettings⟩
      = (⟨⟨⟨0, ac⟩, ⟨0, ap⟩, 1, ⟨0, -(3 / 2 * av)⟩, Vec.zv, ⟨0, av⟩, ⟨0, aa⟩, 1 / 60⟩,
          ⟨⟨0, bc⟩, ⟨0, bp⟩, 1, ⟨0, -(3 / 4 * bv)⟩, Vec.zv, ⟨0, bv⟩, ⟨0, ba⟩, 1 / 60⟩,
          t, c, DefaultBallPushSettings⟩, false) := by
    unfold collision VerletParticle.position DefaultBallPushSettings
    dsimp only
    split_ifs with hcond
    · exfalso
      have hl : Vec.len (Vec.sub ⟨0, ac⟩ ⟨0, bc⟩) = |ac - bc| := by
        norm_num [Vec.sub, Vec.len_axis]
      rw [hl, abs_sub_comm, abs_of_nonneg (by linarith)] at hcond
      linarith
    · rfl
  rw [e3]
  dsimp only
  have e4 : ballBoundary
        ⟨⟨⟨0, ac⟩, ⟨0, ap⟩, 1, ⟨0, -(3 / 2 * av)⟩, Vec.zv, ⟨0, av⟩, ⟨0, aa⟩, 1 / 60⟩,
         ⟨⟨0, bc⟩, ⟨0, bp⟩, 1, ⟨0, -(3 / 4 * bv)⟩, Vec.zv, ⟨0, bv⟩, ⟨0, ba⟩, 1 / 60⟩,
         t, c, DefaultBallPushSettings⟩
      = ⟨⟨⟨0, ac⟩, ⟨0, ap⟩, 1, ⟨0, -(3 / 2 * av)⟩, Vec.zv, ⟨0, av⟩, ⟨0, aa⟩, 1 / 60⟩,
         ⟨⟨0, bc⟩, ⟨0, bp⟩, 1, ⟨0, -(3 / 4 * bv)⟩, Vec.zv, ⟨0, bv⟩, ⟨0, ba⟩, 1 / 60⟩,
         t, c, DefaultBallPushSettings⟩ := by
    unfold ballBoundary VerletParticle.position DefaultBallPushSettings
    dsimp only
    split_ifs with hcond
    · exfalso
      rw [Vec.len_axis, abs_of_nonneg (by linarith : (0:ℝ) ≤ bc)] at hcond
      linarith
    · rfl
  rw [e4]
  have e5 : centerCheck
        ⟨⟨⟨0, ac⟩, ⟨0, ap⟩, 1, ⟨0, -(3 / 2 * av)⟩, Vec.zv, ⟨0, av⟩, ⟨0, aa⟩, 1 / 60⟩,
         ⟨⟨0, bc⟩, ⟨0, bp⟩, 1, ⟨0, -(3 / 4 * bv)⟩, Vec.zv, ⟨0, bv⟩, ⟨0, ba⟩, 1 / 60⟩,
         t, c, DefaultBallPushSettings⟩
      = (⟨⟨⟨0, ac⟩, ⟨0, ap⟩, 1, ⟨0, -(3 / 2 * av)⟩, Vec.zv, ⟨0, av⟩, ⟨0, aa⟩, 1 / 60⟩,
          ⟨⟨0, bc⟩, ⟨0, bp⟩, 1, ⟨0, -(3 / 4 * bv)⟩, Vec.zv, ⟨0, bv⟩, ⟨0, ba⟩, 1 / 60⟩,
          t, c, DefaultBallPushSettings⟩, false) := by
    unfold centerCheck BallInCenter VerletParticle.position DefaultBallPushSettings
    dsimp only
    split_ifs with hcond
    · exfalso
      have := hcond.1
      rw [Vec.len_axis, abs_of_nonneg (by linarith : (0:ℝ) ≤ bc)] at this
      linarith
    · rfl
  rw [e5]
  dsimp only
  unfold integrate VerletParticle.stepParticle axisState axisP
  dsimp only
  norm_num [Vec.add, Vec.sub, Vec.scaled, Vec.zv]
  constructor <;> ring

end BallPushEnv

namespace BallPushEnv

/-- Shared helper: one `stepBody` with the zero action from an on-axis
state in which the agent (below the ball) overlaps the ball and no other
constraint fires: the penetration is split equally, the touch flag is set,
and both particles are integrated from their corrected positions. -/
theorem touch_step (ac ap av aa bc bp bv ba acp bcp A Av B Bv : ℝ)
    (h1 : 0 ≤ ac) (h2 : ac ≤ 49) (h3 : ac < bc) (h4 : bc - ac < 3)
    (hacp : acp = ac - (3 - (bc - ac)) / 2) (hbcp : bcp = bc + (3 - (bc - ac)) / 2)
    (h5 : bcp ≤ 48) (h6 : 1 ≤ bcp)
    (hA : A = 2 * acp - ap - av / 2400) (hAv : Av = (A - ap) * 30)
    (hB : B = 2 * bcp - bp - bv / 4800) (hBv : Bv = (B - bp) * 30) :
    (BallPushEnv.stepBody (axisState ac ap av aa bc bp bv ba false false) 0 0).1
      = axisState A acp Av (-(3 / 2 * av)) B bcp Bv (-(3 / 4 * bv)) true false := by
  subst hacp hbcp hA hAv hB hBv
  have e1 : applyForces (axisState ac ap av aa bc bp bv ba false false) 0 0
      = ⟨⟨⟨0, ac⟩, ⟨0, ap⟩, 1, ⟨0, -(3 / 2 * av)⟩, Vec.zv, ⟨0, av⟩, ⟨0, aa⟩, 1 / 60⟩,
         ⟨⟨0, bc⟩, ⟨0, bp⟩, 1, ⟨0, -(3 / 4 * bv)⟩, Vec.zv, ⟨0, bv⟩, ⟨0, ba⟩, 1 / 60⟩,
         false, false, DefaultBallPushSettings⟩ := by
    unfold applyForces agentControlForce
    rw [controlVec_zero]
    unfold axisState axisP VerletParticle.applyForce VerletParticle.velocity DefaultBallPushSettings
    dsimp only
    norm_num [Vec.add, Vec.sub, Vec.scaled, Vec.zv]
    constructor <;> ring
  rw [stepBody_fst, e1]
  have e2 : agentBoundary
        ⟨⟨⟨0, ac⟩, ⟨0, ap⟩, 1, ⟨0, -(3 / 2 * av)⟩, Vec.zv, ⟨0, av⟩, ⟨0, aa⟩, 1 / 60⟩,
         ⟨⟨0, bc⟩, ⟨0, bp⟩, 1, ⟨0, -(3 / 4 * bv)⟩, Vec.zv, ⟨0, bv⟩, ⟨0, ba⟩, 1 / 60⟩,
         false, false, DefaultBallPushSettings⟩
      = ⟨⟨⟨0, ac⟩, ⟨0, ap⟩, 1, ⟨0, -(3 / 2 * av)⟩, Vec.zv, ⟨0, av⟩, ⟨0, aa⟩, 1 / 60⟩,
         ⟨⟨0, bc⟩, ⟨0, bp⟩, 1, ⟨0, -(3 / 4 * bv)⟩, Vec.zv, ⟨0, bv⟩, ⟨0, ba⟩, 1 / 60⟩,
         false, false, DefaultBallPushSettings⟩ := by
    unfold agentBoundary VerletParticle.position DefaultBallPushSettings
    dsimp only
    split_ifs with hcond
    · exfalso
      rw [Vec.len_axis, abs_of_nonneg h1] at hcond
      linarith
    · rfl
  rw [e2]
  have hsub : Vec.sub ⟨0, ac⟩ ⟨0, bc⟩ = ⟨0, ac - bc⟩ := by
    norm_num [Vec.sub]
  have hlen : Vec.len (⟨0, ac - bc⟩ : Vec) = bc - ac := by
    rw [Vec.len_axis, abs_sub_comm, abs_of_nonneg (by linarith)]
  have hu : Vec.unit (⟨0, ac - bc⟩ : Vec) = ⟨0, -1⟩ :=
    Vec.unit_axis_neg _ (by linarith)
  have e3 : collision
        ⟨⟨⟨0, ac⟩, ⟨0, ap⟩, 1, ⟨0, -(3 / 2 * av)⟩, Vec.zv, ⟨0, av⟩, ⟨0, aa⟩, 1 / 60⟩,
         ⟨⟨0, bc⟩, ⟨0, bp⟩, 1, ⟨0, -(3 / 4 * bv)⟩, Vec.zv, ⟨0, bv⟩, ⟨0, ba⟩, 1 / 60⟩,
         false, false, DefaultBallPushSettings⟩
      = (⟨⟨⟨0, ac - (3 - (bc - ac)) / 2⟩, ⟨0, ap⟩, 1, ⟨0, -(3 / 2 * av)⟩, Vec.zv,
           ⟨0, av⟩, ⟨0, aa⟩, 1 / 60⟩,
          ⟨⟨0, bc + (3 - (bc - ac)) / 2⟩, ⟨0, bp⟩, 1, ⟨0, -(3 / 4 * bv)⟩, Vec.zv,
           ⟨0, bv⟩, ⟨0, ba⟩, 1 / 60⟩,
          true, false, DefaultBallPushSettings⟩, true) := by
    unfold collision VerletParticle.position VerletParticle.slideToPosition DefaultBallPushSettings
    dsimp only
    rw [hsub, hlen, hu]
    split_ifs with hcond
    · norm_num [Vec.add, Vec.sub, Vec.scaled, Vec.zv]
      constructor <;> ring
    · exfalso
      apply hcond
      linarith
  rw [e3]
  dsimp only
  have e4 : ballBoundary
        ⟨⟨⟨0, ac - (3 - (bc - ac)) / 2⟩, ⟨0, ap⟩, 1, ⟨0, -(3 / 2 * av)⟩, Vec.zv,
          ⟨0, av⟩, ⟨0, aa⟩, 1 / 60⟩,
         ⟨⟨0, bc + (3 - (bc - ac)) / 2⟩, ⟨0, bp⟩, 1, ⟨0, -(3 / 4 * bv)⟩, Vec.zv,
          ⟨0, bv⟩, ⟨0, ba⟩, 1 / 60⟩,
         true, false, DefaultBallPushSettings⟩
      = ⟨⟨⟨0, ac - (3 - (bc - ac)) / 2⟩, ⟨0, ap⟩, 1, ⟨0, -(3 / 2 * av)⟩, Vec.zv,
          ⟨0, av⟩, ⟨0, aa⟩, 1 / 60⟩,
         ⟨⟨0, bc + (3 - (bc - ac)) / 2⟩, ⟨0, bp⟩, 1, ⟨0, -(3 / 4 * bv)⟩, Vec.zv,
          ⟨0, bv⟩, ⟨0, ba⟩, 1 / 60⟩,
         true, false, DefaultBallPushSettings⟩ := by
    unfold ballBoundary VerletParticle.position DefaultBallPushSettings
    dsimp only
    split_ifs with hcond
    · exfalso
      rw [Vec.len_axis, abs_of_nonneg (by linarith : (0:ℝ) ≤ bc + (3 - (bc - ac)) / 2)] at hcond
      linarith
    · rfl
  rw [e4]
  have e5 : centerCheck
        ⟨⟨⟨0, ac - (3 - (bc - ac)) / 2⟩, ⟨0, ap⟩, 1, ⟨0, -(3 / 2 * av)⟩, Vec.zv,
          ⟨0, av⟩, ⟨0, aa⟩, 1 / 60⟩,
         ⟨⟨0, bc + (3 - (bc - ac)) / 2⟩, ⟨0, bp⟩, 1, ⟨0, -(3 / 4 * bv)⟩, Vec.zv,
          ⟨0, bv⟩, ⟨0, ba⟩, 1 / 60⟩,
         true, false, DefaultBallPushSettings⟩
      = (⟨⟨⟨0, ac - (3 - (bc - ac)) / 2⟩, ⟨0, ap⟩, 1, ⟨0, -(3 / 2 * av)⟩, Vec.zv,
           ⟨0, av⟩, ⟨0, aa⟩, 1 / 60⟩,
          ⟨⟨0, bc + (3 - (bc - ac)) / 2⟩, ⟨0, bp⟩, 1, ⟨0, -(3 / 4 * bv)⟩, Vec.zv,
           ⟨0, bv⟩, ⟨0, ba⟩, 1 / 60⟩,
          true, false, DefaultBallPushSettings⟩, false) := by
    unfold centerCheck BallInCenter VerletParticle.position DefaultBallPushSettings
    dsimp only
    split_ifs with hcond
    · exfalso
      have := hcond.1
      rw [Vec.len_axis, abs_of_nonneg (by linarith : (0:ℝ) ≤ bc + (3 - (bc - ac)) / 2)] at this
      linarith
    · rfl
  rw [e5]
  dsimp only
  unfold integrate VerletParticle.stepParticle axisState axisP
  dsimp only
  norm_num [Vec.add, Vec.sub, Vec.scaled, Vec.zv]
  constructor <;> ring

end BallPushEnv

/-- C2 counterexample: from a `Reset` of the default environment that
places the agent at `(0, 37)` and the ball at `(0, 37.4)` (random draws
`74/75, 0, 374/375, 0`, all in `[0, 1)`), the first `Step` resolves the
agent-ball overlap by sliding the ball outward, and seven further `Step`s
with the valid action `(0, 0)` let the resulting Verlet velocity carry the
ball to distance `653024871174017427 / 13421772800000000 ≈ 48.654` from the
center — more than `1/2` beyond `BoundaryRadius - BallRadius = 48` — because
the boundary clamps run before the integration.  So the claimed post-`Step`
containment fails on a reachable state and a valid action. -/
theorem ballPush_containment_counterexample :
    (fun s => (BallPushEnv.stepBody s 0 0).1)^[8]
        (BallPushEnv.newEnv DefaultBallPushSettings (74 / 75) 0 (374 / 375) 0).1
      = BallPushEnv.axisState (2744522862616893 / 104857600000000) (35730894437027 / 1310720000000) (-(692574270126921 / 10485760000000)) (-(3 / 2 * (-(8882116055319 / 131072000000)))) (653024871174017427 / 13421772800000000) (3981593368194733 / 83886080000000) (96429958988394681 / 1342177280000000) (-(3 / 4 * (610365411233799 / 8388608000000))) true false
    ∧ validAction [0, 0] 2
    ∧ (BallPushEnv.step (BallPushEnv.axisState (35730894437027 / 1310720000000) (464903273853 / 16384000000) (-(8882116055319 / 131072000000)) (-(3 / 2 * (-(113911228041 / 1638400000)))) (3981593368194733 / 83886080000000) (24253185605907 / 524288000000) (610365411233799 / 8388608000000) (-(3 / 4 * (3863383736121 / 52428800000))) true false) [0, 0]).map Prod.fst
      = some (BallPushEnv.axisState (2744522862616893 / 104857600000000) (35730894437027 / 1310720000000) (-(692574270126921 / 10485760000000)) (-(3 / 2 * (-(8882116055319 / 131072000000)))) (653024871174017427 / 13421772800000000) (3981593368194733 / 83886080000000) (96429958988394681 / 1342177280000000) (-(3 / 4 * (610365411233799 / 8388608000000))) true false)
    ∧ DefaultBallPushSettings.BoundaryRadius - DefaultBallPushSettings.BallRadius + 1 / 2
      < Vec.len (BallPushEnv.axisState (2744522862616893 / 104857600000000) (35730894437027 / 1310720000000) (-(692574270126921 / 10485760000000)) (-(3 / 2 * (-(8882116055319 / 131072000000)))) (653024871174017427 / 13421772800000000) (3981593368194733 / 83886080000000) (96429958988394681 / 1342177280000000) (-(3 / 4 * (610365411233799 / 8388608000000))) true false).Ball.position := by
  have hval : validAction [0, 0] 2 := by
    constructor
    · rfl
    · intro v hv
      simp at hv
      rw [hv]
      norm_num
  have h0 : (BallPushEnv.newEnv DefaultBallPushSettings (74 / 75) 0 (374 / 375) 0).1
      = BallPushEnv.axisState 37 37 0 0 (187 / 5) (187 / 5) 0 0 false false := by
    unfold BallPushEnv.newEnv BallPushEnv.reset BallPushEnv.axisState BallPushEnv.axisP
      VerletParticle.new VerletParticle.slideToPosition VerletParticle.setVelocity
      Vec.rotated DefaultBallPushSettings
    dsimp only
    norm_num [Vec.sub, Vec.scaled, Vec.zv, Real.sin_zero, Real.cos_zero]

  have st1 : (BallPushEnv.stepBody (BallPushEnv.axisState 37 37 0 0 (187 / 5) (187 / 5) 0 0 false false) 0 0).1
      = BallPushEnv.axisState (172 / 5) (357 / 10) (-78) (-(3 / 2 * 0)) 40 (387 / 10) 78 (-(3 / 4 * 0)) true false :=
    BallPushEnv.touch_step _ _ _ _ _ _ _ _ _ _ _ _ _ _ (by norm_num) (by norm_num)
      (by norm_num) (by norm_num) (by norm_num) (by norm_num) (by norm_num) (by norm_num)
      (by norm_num) (by norm_num) (by norm_num) (by norm_num)
  have st2 : (BallPushEnv.stepBody (BallPushEnv.axisState (172 / 5) (357 / 10) (-78) (-(3 / 2 * 0)) 40 (387 / 10) 78 (-(3 / 4 * 0)) true false) 0 0).1
      = BallPushEnv.axisState (13253 / 400) (172 / 5) (-(3081 / 40)) (-(3 / 2 * (-78))) (33027 / 800) 40 (6201 / 80) (-(3 / 4 * 78)) true false :=
    BallPushEnv.coast_step _ _ _ _ _ _ _ _ _ _ _ _ _ _ (by norm_num) (by norm_num)
      (by norm_num) (by norm_num) (by norm_num) (by norm_num) (by norm_num) (by norm_num)
      (by norm_num)
  have st3 : (BallPushEnv.stepBody (BallPushEnv.axisState (13253 / 400) (172 / 5) (-(3081 / 40)) (-(3 / 2 * (-78))) (33027 / 800) 40 (6201 / 80) (-(3 / 4 * 78)) true false) 0 0).1
      = BallPushEnv.axisState (1020707 / 32000) (13253 / 400) (-(240279 / 3200)) (-(3 / 2 * (-(3081 / 40)))) (5446573 / 128000) (33027 / 800) (979719 / 12800) (-(3 / 4 * (6201 / 80))) true false :=
    BallPushEnv.coast_step _ _ _ _ _ _ _ _ _ _ _ _ _ _ (by norm_num) (by norm_num)
      (by norm_num) (by norm_num) (by norm_num) (by norm_num) (by norm_num) (by norm_num)
      (by norm_num)
  have st4 : (BallPushEnv.stepBody (BallPushEnv.axisState (1020707 / 32000) (13253 / 400) (-(240279 / 3200)) (-(3 / 2 * (-(3081 / 40)))) (5446573 / 128000) (33027 / 800) (979719 / 12800) (-(3 / 4 * (6201 / 80))) true false) 0 0).1
      = BallPushEnv.axisState (78574013 / 2560000) (1020707 / 32000) (-(18735561 / 256000)) (-(3 / 2 * (-(240279 / 3200)))) (897085587 / 20480000) (5446573 / 128000) (154783161 / 2048000) (-(3 / 4 * (979719 / 12800))) true false :=
    BallPushEnv.coast_step _ _ _ _ _ _ _ _ _ _ _ _ _ _ (by norm_num) (by norm_num)
      (by norm_num) (by norm_num) (by norm_num) (by norm_num) (by norm_num) (by norm_num)
      (by norm_num)
  have st5 : (BallPushEnv.stepBody (BallPushEnv.axisState (78574013 / 2560000) (1020707 / 32000) (-(18735561 / 256000)) (-(3 / 2 * (-(240279 / 3200)))) (897085587 / 20480000) (5446573 / 128000) (154783161 / 2048000) (-(3 / 4 * (979719 / 12800))) true false) 0 0).1
      = BallPushEnv.axisState (6045562467 / 204800000) (78574013 / 2560000) (-(1460886999 / 20480000)) (-(3 / 2 * (-(18735561 / 256000)))) (147583524653 / 3276800000) (897085587 / 20480000) (24453767559 / 327680000) (-(3 / 4 * (154783161 / 2048000))) true false :=
    BallPushEnv.coast_step _ _ _ _ _ _ _ _ _ _ _ _ _ _ (by norm_num) (by norm_num)
      (by norm_num) (by norm_num) (by norm_num) (by norm_num) (by norm_num) (by norm_num)
      (by norm_num)
  have st6 : (BallPushEnv.stepBody (BallPushEnv.axisState (6045562467 / 204800000) (78574013 / 2560000) (-(1460886999 / 20480000)) (-(3 / 2 * (-(18735561 / 256000)))) (147583524653 / 3276800000) (897085587 / 20480000) (24453767559 / 327680000) (-(3 / 4 * (154783161 / 2048000))) true false) 0 0).1
      = BallPushEnv.axisState (464903273853 / 16384000000) (6045562467 / 204800000) (-(113911228041 / 1638400000)) (-(3 / 2 * (-(1460886999 / 20480000)))) (24253185605907 / 524288000000) (147583524653 / 3276800000) (3863383736121 / 52428800000) (-(3 / 4 * (24453767559 / 327680000))) true false :=
    BallPushEnv.coast_step _ _ _ _ _ _ _ _ _ _ _ _ _ _ (by norm_num) (by norm_num)
      (by norm_num) (by norm_num) (by norm_num) (by norm_num) (by norm_num) (by norm_num)
      (by norm_num)
  have st7 : (BallPushEnv.stepBody (BallPushEnv.axisState (464903273853 / 16384000000) (6045562467 / 204800000) (-(113911228041 / 1638400000)) (-(3 / 2 * (-(1460886999 / 20480000)))) (24253185605907 / 524288000000) (147583524653 / 3276800000) (3863383736121 / 52428800000) (-(3 / 4 * (24453767559 / 327680000))) true false) 0 0).1
      = BallPushEnv.axisState (35730894437027 / 1310720000000) (464903273853 / 16384000000) (-(8882116055319 / 131072000000)) (-(3 / 2 * (-(113911228041 / 1638400000)))) (3981593368194733 / 83886080000000) (24253185605907 / 524288000000) (610365411233799 / 8388608000000) (-(3 / 4 * (3863383736121 / 52428800000))) true false :=
    BallPushEnv.coast_step _ _ _ _ _ _ _ _ _ _ _ _ _ _ (by norm_num) (by norm_num)
      (by norm_num) (by norm_num) (by norm_num) (by norm_num) (by norm_num) (by norm_num)
      (by norm_num)
  have st8 : (BallPushEnv.stepBody (BallPushEnv.axisState (35730894437027 / 1310720000000) (464903273853 / 16384000000) (-(8882116055319 / 131072000000)) (-(3 / 2 * (-(113911228041 / 1638400000)))) (3981593368194733 / 83886080000000) (24253185605907 / 524288000000) (610365411233799 / 8388608000000) (-(3 / 4 * (3863383736121 / 52428800000))) true false) 0 0).1
      = BallPushEnv.axisState (2744522862616893 / 104857600000000) (35730894437027 / 1310720000000) (-(692574270126921 / 10485760000000)) (-(3 / 2 * (-(8882116055319 / 131072000000)))) (653024871174017427 / 13421772800000000) (3981593368194733 / 83886080000000) (96429958988394681 / 1342177280000000) (-(3 / 4 * (610365411233799 / 8388608000000))) true false :=
    BallPushEnv.coast_step _ _ _ _ _ _ _ _ _ _ _ _ _ _ (by norm_num) (by norm_num)
      (by norm_num) (by norm_num) (by norm_num) (by norm_num) (by norm_num) (by norm_num)
      (by norm_num)
  have hit : ∀ (g : BallPushEnv → BallPushEnv) (x : BallPushEnv),
      g^[8] x = g (g (g (g (g (g (g (g x))))))) := by
    intro g x
    rfl
  refine ⟨?_, hval, ?_, ?_⟩
  · rw [h0, hit]
    rw [st1, st2, st3, st4, st5, st6, st7, st8]
  · rw [BallPushEnv.step, if_pos hval]
    show Option.map Prod.fst (some ((BallPushEnv.stepBody _ 0 0).1, (BallPushEnv.stepBody _ 0 0).2)) = _
    rw [Option.map_some', st8]
  · unfold BallPushEnv.axisState BallPushEnv.axisP VerletParticle.position
      DefaultBallPushSettings
    dsimp only
    rw [Vec.len_axis,
      abs_of_nonneg (by norm_num : (0:ℝ) ≤ 653024871174017427 / 13421772800000000)]
    norm_num
